import Mathlib

/-!
Verification of the mouse-click data-collection utility
(src/ref/old/computer.py and src/ref/old/collect.py).

The development shallowly embeds the two Python modules:

* filesystem state is an association list from path strings to file
  contents, with write, erase and rename operations;
* the ComputerController class becomes a Lean structure holding the
  click-pending flag, the configured directories, the capture interval
  and the last-capture timestamp (times are rationals, modelling the
  Python floats returned by time.time);
* the click callback, the example-record serializer, the screenshot
  routine and the polling-loop body become pure state-passing functions;
  nondeterministic failures of the operating system (a failing rename,
  a failing monitor grab or image encode) are oracle inputs;
* Python float formatting of a coordinate is modelled by a sign plus
  two digit lists (integer part and fractional part), rendered exactly
  as sign, digits, dot, digits.
-/

namespace Collect

/-! ### Decimal digits and numeral rendering -/

/-- One decimal digit rendered as its character. The catch-all branch is
never reached on inputs below ten. -/
def digitCharN : Nat → Char
  | 0 => '0' | 1 => '1' | 2 => '2' | 3 => '3' | 4 => '4'
  | 5 => '5' | 6 => '6' | 7 => '7' | 8 => '8' | 9 => '9'
  | _ => '?'

/-- Numeric value of a digit character (inverse of digitCharN on digits). -/
def digitVal : Char → Nat
  | '0' => 0 | '1' => 1 | '2' => 2 | '3' => 3 | '4' => 4
  | '5' => 5 | '6' => 6 | '7' => 7 | '8' => 8 | '9' => 9
  | _ => 10

/-- Whether a character is an ASCII decimal digit. -/
def isDigitCh (c : Char) : Bool :=
  48 ≤ c.toNat && c.toNat ≤ 57

/-- Fuel-driven rendering of a natural number in decimal,
most significant digit first. Models the Python str of a
nonnegative int. -/
def natStrAux : Nat → Nat → List Char
  | 0, _ => []
  | fuel + 1, n =>
    if n < 10 then [digitCharN n]
    else natStrAux fuel (n / 10) ++ [digitCharN (n % 10)]

/-- Decimal rendering of a natural number, models str(n) in Python. -/
def natStr (n : Nat) : List Char := natStrAux (n + 1) n

/-- Fold a digit string back to the natural number it denotes. -/
def parseDigits (l : List Char) : Nat :=
  l.foldl (fun acc c => acc * 10 + digitVal c) 0

theorem digitVal_digitCharN (k : Nat) (h : k < 10) :
    digitVal (digitCharN k) = k := by
  have h10 : ∀ j : Fin 10, digitVal (digitCharN j.val) = j.val := by decide
  exact h10 ⟨k, h⟩

theorem parseDigits_append_single (l : List Char) (c : Char) :
    parseDigits (l ++ [c]) = parseDigits l * 10 + digitVal c := by
  simp [parseDigits, List.foldl_append]

theorem parseDigits_natStrAux :
    ∀ fuel n, n < 10 ^ fuel → parseDigits (natStrAux fuel n) = n := by
  intro fuel
  induction fuel with
  | zero =>
    intro n h
    have hn0 : n = 0 := by omega
    simp [hn0, natStrAux, parseDigits]
  | succ f ih =>
    intro n h
    by_cases hn : n < 10
    · simp [natStrAux, hn, parseDigits, digitVal_digitCharN n hn]
    · have hdiv : n / 10 < 10 ^ f := by
        have hps : 10 ^ (f + 1) = 10 ^ f * 10 := pow_succ 10 f
        omega
      simp [natStrAux, hn, parseDigits_append_single,
        ih (n / 10) hdiv, digitVal_digitCharN (n % 10) (Nat.mod_lt n (by omega))]
      omega

theorem parseDigits_natStr (n : Nat) : parseDigits (natStr n) = n := by
  refine parseDigits_natStrAux (n + 1) n ?_
  calc n < 10 ^ n := Nat.lt_pow_self (by omega) n
    _ ≤ 10 ^ (n + 1) := Nat.pow_le_pow_right (by omega) (by omega)

theorem natStr_injective {a b : Nat} (h : natStr a = natStr b) : a = b := by
  have := congrArg parseDigits h
  simpa [parseDigits_natStr] using this

/-! ### Coordinate values and their textual form

Pynput delivers click coordinates as Python floats; the click handler
interpolates them into a string. A screen coordinate in its normal
range prints as an optional minus sign, the integer digits, and, when a
fractional part is printed, a dot followed by the fractional digits.
The Decimal structure is that printed form. -/

/-- One decimal digit. -/
def digitChar (d : Fin 10) : Char := digitCharN d.val

/-- The printed form of a Python float coordinate: sign, integer
digits, fractional digits. -/
structure Decimal where
  neg : Bool
  intDigits : List (Fin 10)
  fracDigits : List (Fin 10)
deriving DecidableEq, Repr

/-- Character rendering of a Decimal, exactly as Python prints the
float: sign, integer digits, then a dot and the fractional digits when
any are present. -/
def Decimal.render (d : Decimal) : List Char :=
  (if d.neg then ['-'] else []) ++ d.intDigits.map digitChar ++
    (if d.fracDigits = [] then [] else '.' :: d.fracDigits.map digitChar)

/-- Matcher for the digit run with an optional dot and trailing digits,
the part of the coordinate pattern after the first digit. -/
def afterDigits : List Char → Bool
  | [] => true
  | c :: rest => if c = '.' then rest.all isDigitCh
                 else isDigitCh c && afterDigits rest

/-- Matcher for one or more digits, an optional dot, then digits. -/
def coordBody : List Char → Bool
  | [] => false
  | c :: rest => isDigitCh c && afterDigits rest

/-- Matcher for the documented coordinate-token pattern: an optional
minus sign, one or more digits, an optional dot, then digits. -/
def coordTok (l : List Char) : Bool :=
  if l.head? = some '-' then coordBody l.tail else coordBody l

/-- Split a character list at every comma, the model of the Python
str.split with a comma separator. -/
def splitComma : List Char → List (List Char)
  | [] => [[]]
  | c :: rest =>
    if c = ',' then [] :: splitComma rest
    else
      match splitComma rest with
      | [] => [[c]]
      | t :: ts => (c :: t) :: ts

theorem isDigitCh_digitChar (d : Fin 10) : isDigitCh (digitChar d) = true := by
  revert d; decide

theorem digitChar_ne_comma (d : Fin 10) : digitChar d ≠ ',' := by
  revert d; decide

theorem digitChar_ne_dot (d : Fin 10) : digitChar d ≠ '.' := by
  revert d; decide

theorem digitChar_ne_minus (d : Fin 10) : digitChar d ≠ '-' := by
  revert d; decide

theorem comma_not_mem_render (d : Decimal) : ',' ∉ d.render := by
  rcases d with ⟨neg, ints, fracs⟩
  intro hmem
  simp only [Decimal.render, List.mem_append] at hmem
  rcases hmem with (h1 | h2) | h3
  · cases neg
    · simp at h1
    · rw [if_pos rfl, List.mem_singleton] at h1
      exact (by decide : ¬ (',' : Char) = '-') h1
  · rcases List.mem_map.mp h2 with ⟨k, _, hk⟩
    exact digitChar_ne_comma k hk
  · rcases fracs with _ | ⟨f0, frest⟩
    · simp at h3
    · rw [if_neg (by simp), List.mem_cons] at h3
      rcases h3 with h | h
      · exact (by decide : ¬ (',' : Char) = '.') h
      · rcases List.mem_map.mp h with ⟨k, _, hk⟩
        exact digitChar_ne_comma k hk

theorem all_isDigitCh_map_digitChar (fs : List (Fin 10)) :
    (fs.map digitChar).all isDigitCh = true := by
  rw [List.all_eq_true]
  intro c hc
  rcases List.mem_map.mp hc with ⟨k, _, hk⟩
  exact hk ▸ isDigitCh_digitChar k

theorem afterDigits_digits_frac (ds fs : List (Fin 10)) :
    afterDigits (ds.map digitChar ++
      (if fs = [] then [] else '.' :: fs.map digitChar)) = true := by
  induction ds with
  | nil =>
    rcases fs with _ | ⟨f0, frest⟩
    · simp [afterDigits]
    · rw [if_neg (by simp), List.map_nil, List.nil_append]
      simp only [afterDigits, if_pos rfl]
      exact all_isDigitCh_map_digitChar (f0 :: frest)
  | cons d ds ih =>
    simp only [List.map_cons, List.cons_append, afterDigits]
    rw [if_neg (digitChar_ne_dot d), isDigitCh_digitChar d]
    simp only [Bool.true_and]
    exact ih

theorem coordBody_digits_frac (i0 : Fin 10) (irest fs : List (Fin 10)) :
    coordBody (digitChar i0 :: (irest.map digitChar ++
      (if fs = [] then [] else '.' :: fs.map digitChar))) = true := by
  simp only [coordBody]
  rw [isDigitCh_digitChar i0, afterDigits_digits_frac irest fs, Bool.and_self]

theorem coordTok_render (d : Decimal) (h : d.intDigits ≠ []) :
    coordTok d.render = true := by
  rcases d with ⟨neg, ints, fracs⟩
  rcases ints with _ | ⟨i0, irest⟩
  · exact absurd rfl h
  · cases neg
    · have hre : Decimal.render ⟨false, i0 :: irest, fracs⟩ =
          digitChar i0 :: (irest.map digitChar ++
            (if fracs = [] then [] else '.' :: fracs.map digitChar)) := by
        simp [Decimal.render]
      rw [coordTok.eq_def, hre]
      rw [if_neg (by simp [List.head?]; exact digitChar_ne_minus i0)]
      exact coordBody_digits_frac i0 irest fracs
    · have hre : Decimal.render ⟨true, i0 :: irest, fracs⟩ =
          '-' :: (digitChar i0 :: (irest.map digitChar ++
            (if fracs = [] then [] else '.' :: fracs.map digitChar))) := by
        simp [Decimal.render]
      rw [coordTok.eq_def, hre]
      simp only [List.head?_cons, List.tail_cons]
      rw [if_pos trivial]
      exact coordBody_digits_frac i0 irest fracs

theorem splitComma_no_comma (l : List Char) (h : ',' ∉ l) :
    splitComma l = [l] := by
  induction l with
  | nil => rfl
  | cons c rest ih =>
    have hc : c ≠ ',' := fun hc => h (hc ▸ List.mem_cons_self c rest)
    have hrest : ',' ∉ rest := fun hr => h (List.mem_cons_of_mem c hr)
    simp [splitComma, hc, ih hrest]

theorem splitComma_append (a b : List Char) (ha : ',' ∉ a) :
    splitComma (a ++ ',' :: b) = a :: splitComma b := by
  induction a with
  | nil => simp [splitComma]
  | cons c rest ih =>
    have hc : c ≠ ',' := fun hc => ha (hc ▸ List.mem_cons_self c rest)
    have hrest : ',' ∉ rest := fun hr => ha (List.mem_cons_of_mem c hr)
    have hne : splitComma (rest ++ ',' :: b) = rest :: splitComma b := ih hrest
    simp [splitComma, hc, hne]

theorem splitComma_pair (a b : List Char) (ha : ',' ∉ a) (hb : ',' ∉ b) :
    splitComma (a ++ ',' :: b) = [a, b] := by
  rw [splitComma_append a b ha, splitComma_no_comma b hb]

/-! ### A minimal JSON value type

The example record built by save_click_data is a nest of dicts, lists
and strings, serialized with json.dump; the Json type captures exactly
those shapes. -/

/-- JSON values as produced by the serializer. -/
inductive Json where
  | str (s : String)
  | arr (elems : List Json)
  | obj (fields : List (String × Json))

/-- First binding of a key in an object field list. -/
def lookupField : List (String × Json) → String → Option Json
  | [], _ => none
  | (k1, v) :: rest, k => if k1 = k then some v else lookupField rest k

/-- Field access on a JSON object, none on other shapes. -/
def Json.getField : Json → String → Option Json
  | Json.obj fields, k => lookupField fields k
  | _, _ => none

/-- Element access on a JSON array, none on other shapes. -/
def Json.getIdx : Json → Nat → Option Json
  | Json.arr elems, i => elems.get? i
  | _, _ => none

/-! ### Filesystem model

The two modules touch the filesystem through screenshot writes, the
click-time rename and the record write. The model is an association
list from paths to contents; a write shadows any previous entry at the
same path. -/

/-- Contents of a file: a screenshot image or a JSON document. -/
inductive FileContent where
  | image
  | json (j : Json)

/-- Filesystem state: the existing files with their contents. -/
abbrev FS := List (String × FileContent)

/-- Content stored at a path, none when the file does not exist. -/
def FS.lookup : FS → String → Option FileContent
  | [], _ => none
  | (q, c) :: rest, p => if q = p then some c else FS.lookup rest p

/-- Remove any entry at the given path. -/
def FS.erase (fs : FS) (p : String) : FS :=
  fs.filter (fun e => e.1 ≠ p)

/-- Create or overwrite the file at a path, the model of an opening
write such as img.save or json.dump into an opened file. -/
def FS.write (fs : FS) (p : String) (c : FileContent) : FS :=
  (p, c) :: FS.erase fs p

/-- Whether a file exists at the path, the model of os.path.exists. -/
def FS.existsFile (fs : FS) (p : String) : Bool :=
  (FS.lookup fs p).isSome

/-- Move the file at src to dst, overwriting dst, the model of a
successful os.rename. When src is absent nothing changes (the callers
only rename after an existence check). -/
def FS.rename (fs : FS) (src dst : String) : FS :=
  match FS.lookup fs src with
  | none => fs
  | some c => FS.write (FS.erase fs src) dst c

theorem FS.lookup_erase_self (fs : FS) (p : String) :
    FS.lookup (FS.erase fs p) p = none := by
  induction fs with
  | nil => rfl
  | cons e rest ih =>
    by_cases he : e.1 = p
    · simpa [FS.erase, List.filter, he] using ih
    · simpa [FS.erase, List.filter, he, FS.lookup] using ih

theorem FS.lookup_erase_ne (fs : FS) (p q : String) (h : q ≠ p) :
    FS.lookup (FS.erase fs p) q = FS.lookup fs q := by
  have hpq : ¬ p = q := fun hh => h hh.symm
  induction fs with
  | nil => rfl
  | cons e rest ih =>
    by_cases he : e.1 = p
    · simp [FS.erase, List.filter, he, FS.lookup, hpq] at ih ⊢
      exact ih
    · by_cases heq : e.1 = q
      · simp [FS.erase, List.filter, he, FS.lookup, heq, h]
      · simp [FS.erase, List.filter, he, FS.lookup, heq] at ih ⊢
        exact ih

theorem FS.lookup_write_self (fs : FS) (p : String) (c : FileContent) :
    FS.lookup (FS.write fs p c) p = some c := by
  simp [FS.write, FS.lookup]

theorem FS.lookup_write_ne (fs : FS) (p q : String) (c : FileContent)
    (h : q ≠ p) : FS.lookup (FS.write fs p c) q = FS.lookup fs q := by
  have hpq : ¬ p = q := fun hh => h hh.symm
  simp [FS.write, FS.lookup, hpq, FS.lookup_erase_ne fs p q h]

theorem FS.existsFile_write_self (fs : FS) (p : String) (c : FileContent) :
    FS.existsFile (FS.write fs p c) p = true := by
  simp [FS.existsFile, FS.lookup_write_self]

theorem FS.existsFile_write_ne (fs : FS) (p q : String) (c : FileContent)
    (h : q ≠ p) : FS.existsFile (FS.write fs p c) q = FS.existsFile fs q := by
  simp [FS.existsFile, FS.lookup_write_ne fs p q c h]

theorem FS.lookup_rename_src (fs : FS) (src dst : String)
    (hex : FS.existsFile fs src = true) (hne : src ≠ dst) :
    FS.lookup (FS.rename fs src dst) src = none := by
  rcases hlk : FS.lookup fs src with _ | c
  · simp [FS.existsFile, hlk] at hex
  · simp only [FS.rename, hlk]
    rw [FS.lookup_write_ne _ _ _ _ hne, FS.lookup_erase_self]

theorem FS.lookup_rename_dst (fs : FS) (src dst : String) (c : FileContent)
    (hlk : FS.lookup fs src = some c) :
    FS.lookup (FS.rename fs src dst) dst = some c := by
  simp only [FS.rename, hlk]
  exact FS.lookup_write_self _ _ _

/-! ### The ComputerController state and its operations -/

/-- Mouse buttons as delivered by the pynput listener. -/
inductive Button where
  | left
  | right
  | middle
deriving DecidableEq, Repr

/-- The mutable and configuration state of the ComputerController
class: the click-pending flag, the two output directories, the capture
interval, the last capture time and the monitor selector. Times are
rationals modelling Python floats from time.time. -/
structure ComputerController where
  clicked : Bool
  output_dir : String
  screenshot_dir : String
  screenshot_interval : ℚ
  last_screenshot_time : ℚ
  monitor_id : Nat
deriving DecidableEq

/-- Path of the transient screenshot asset,
screenshot_dir joined with screenshot.jpg. -/
def genericScreenshotPath (dir : String) : String :=
  dir ++ "/screenshot.jpg"

/-- Path of the permanent timestamped screenshot asset created at click
time from the timestamp string. -/
def timestampedScreenshotPath (dir ts : String) : String :=
  dir ++ "/screenshot_" ++ ts ++ ".jpg"

/-- Path of an example record file for a millisecond epoch stamp. -/
def exampleFilePath (dir : String) (ms : Nat) : String :=
  dir ++ "/example_" ++ String.mk (natStr ms) ++ ".json"

/-- The fixed user prompt text of every example record. -/
def promptText : String :=
  "Where to click? Answer with coordinates only (e.g., 1111.1111,2222.2222)"

/-- The assistant content of a record: the two coordinates rendered and
joined by a comma, the model of the Python f-string. -/
def assistantContent (x y : Decimal) : String :=
  String.mk (x.render ++ ',' :: y.render)

/-- The example dict built by save_click_data. -/
def exampleRecord (x y : Decimal) (screenshot_path : String) : Json :=
  Json.obj [("messages", Json.arr [
    Json.obj [("role", Json.str "user"),
      ("content", Json.arr [
        Json.obj [("type", Json.str "text"), ("text", Json.str promptText)],
        Json.obj [("type", Json.str "image_url"),
          ("image_url", Json.obj [("url", Json.str screenshot_path)])]])],
    Json.obj [("role", Json.str "assistant"),
      ("content", Json.str (assistantContent x y))]])]

/-- The image reference stored in a record of the documented schema. -/
def recordImageRef (j : Json) : Option String :=
  match (do
    let m ← j.getField "messages"
    let u ← m.getIdx 0
    let cont ← u.getField "content"
    let img ← cont.getIdx 1
    let iu ← img.getField "image_url"
    iu.getField "url" : Option Json) with
  | some (Json.str s) => some s
  | _ => none

/-- The assistant content stored in a record of the documented schema. -/
def recordAssistant (j : Json) : Option String :=
  match (do
    let m ← j.getField "messages"
    let a ← m.getIdx 1
    a.getField "content" : Option Json) with
  | some (Json.str s) => some s
  | _ => none

/-- Schema check for the text entry of the user turn: the fixed
prompt text under a text type tag. -/
def isTextEntry : Json → Bool
  | Json.obj [("type", Json.str ty), ("text", Json.str t)] =>
      ty = "text" && t = promptText
  | _ => false

/-- Schema check for the image entry of the user turn: an image_url
object with a string url. -/
def isImageEntry : Json → Bool
  | Json.obj [("type", Json.str ty),
      ("image_url", Json.obj [("url", Json.str _)])] => ty = "image_url"
  | _ => false

/-- Schema check for the user turn. -/
def isUserTurn : Json → Bool
  | Json.obj [("role", Json.str r), ("content", Json.arr [t, i])] =>
      r = "user" && isTextEntry t && isImageEntry i
  | _ => false

/-- Schema check for the assistant turn: a string content. -/
def isAssistantTurn : Json → Bool
  | Json.obj [("role", Json.str r), ("content", Json.str _)] => r = "assistant"
  | _ => false

/-- Conformance to the documented record schema: a messages list with
the fixed-prompt user turn carrying a text entry and an image_url
entry, then an assistant turn carrying a string content. -/
def isValidExample : Json → Bool
  | Json.obj [("messages", Json.arr [u, a])] => isUserTurn u && isAssistantTurn a
  | _ => false

/-- Model of ComputerController.save_click_data: build the example dict
and dump it to output_dir slash example_ stamp .json, where the stamp
is the millisecond epoch time taken at write time. -/
def save_click_data (c : ComputerController) (x y : Decimal)
    (screenshot_path : String) (nowMs : Nat) (fs : FS) : FS :=
  FS.write fs (exampleFilePath c.output_dir nowMs)
    (FileContent.json (exampleRecord x y screenshot_path))

/-- Python exceptions the embedded code can raise. The only uncaught
one is the TypeError from calling save_click_data without its required
screenshot_path argument. -/
inductive PyError where
  | typeError
deriving DecidableEq, Repr

/-- Outcome of the click callback: a normal return or a raised
exception, in both cases with the controller and filesystem state as
left behind. -/
inductive ClickOutcome where
  | normal (c : ComputerController) (fs : FS)
  | raised (e : PyError) (c : ComputerController) (fs : FS)

/-- Controller state left behind by the callback. -/
def ClickOutcome.ctrl : ClickOutcome → ComputerController
  | ClickOutcome.normal c _ => c
  | ClickOutcome.raised _ c _ => c

/-- Filesystem state left behind by the callback. -/
def ClickOutcome.fsOut : ClickOutcome → FS
  | ClickOutcome.normal _ fs => fs
  | ClickOutcome.raised _ _ fs => fs

/-- Whether the callback returned without raising. -/
def ClickOutcome.isNormal : ClickOutcome → Bool
  | ClickOutcome.normal _ _ => true
  | ClickOutcome.raised _ _ _ => false

/-- Model of ComputerController._on_click. The timestamp string ts and
the millisecond stamp nowMs model the two clock reads; renameOk models
whether the os.rename call succeeds or raises OSError. On a left press
the flag is set, then: if the generic asset exists it is renamed and
the record written against the new path, a rename failure being caught
with a fallback record against the generic path; if the generic asset
does not exist, the source calls save_click_data with two arguments
although save_click_data requires three, so a TypeError is raised. -/
def on_click (c : ComputerController) (fs : FS) (x y : Decimal)
    (button : Button) (pressed : Bool) (ts : String) (nowMs : Nat)
    (renameOk : Bool) : ClickOutcome :=
  if button = Button.left ∧ pressed = true then
    let c1 : ComputerController := { c with clicked := true }
    let newPath := timestampedScreenshotPath c.screenshot_dir ts
    let genericPath := genericScreenshotPath c.screenshot_dir
    if FS.existsFile fs genericPath then
      if renameOk then
        ClickOutcome.normal c1
          (save_click_data c1 x y newPath nowMs (FS.rename fs genericPath newPath))
      else
        ClickOutcome.normal c1 (save_click_data c1 x y genericPath nowMs fs)
    else
      ClickOutcome.raised PyError.typeError c1 fs
  else
    ClickOutcome.normal c fs

/-- Model of ComputerController.was_clicked: report whether the flag
was set and clear it. -/
def was_clicked (c : ComputerController) : Bool × ComputerController :=
  if c.clicked then (true, { c with clicked := false }) else (false, c)

/-- Oracles for the capture subsystem: whether the monitor grab
succeeds and whether the image conversion, resize and encoded save
succeed. -/
structure CaptureEnv where
  grabOk : Bool
  encodeOk : Bool
deriving DecidableEq, Repr

/-- The body of the try block of take_screenshot: grab the monitor,
convert, downsample, and save the JPEG at the generic path, returning
that path. Raises (as an Except error) when the grab or the encode
fails. -/
def take_screenshot_body (c : ComputerController) (env : CaptureEnv)
    (fs : FS) : Except String (String × FS) :=
  if env.grabOk = false then Except.error "monitor grab failed"
  else if env.encodeOk = false then Except.error "image encode failed"
  else
    let p := genericScreenshotPath c.screenshot_dir
    Except.ok (p, FS.write fs p FileContent.image)

/-- Model of ComputerController.take_screenshot: run the body, catch
any exception, and return the written path on success or none after a
caught failure. -/
def take_screenshot (c : ComputerController) (env : CaptureEnv)
    (fs : FS) : Option String × FS :=
  match take_screenshot_body c env fs with
  | Except.ok (p, fs1) => (some p, fs1)
  | Except.error _ => (none, fs)

/-- Model of ComputerController.should_take_screenshot. -/
def should_take_screenshot (c : ComputerController) (current_time : ℚ) : Bool :=
  decide (c.screenshot_interval ≤ current_time - c.last_screenshot_time)

/-- Model of ComputerController.update_screenshot_time. -/
def update_screenshot_time (c : ComputerController) (current_time : ℚ) :
    ComputerController :=
  { c with last_screenshot_time := current_time }

/-- Trace of one iteration of the polling loop in collect.py. -/
structure IterResult where
  ctrl : ComputerController
  fsOut : FS
  captureCalled : Bool
  captureReturned : Option String
  markCalled : Bool
  clickReported : Bool

/-- One iteration of the while loop in main: if a capture is due, take
the screenshot and, only when a path came back, update the capture
time; then consume the click flag. -/
def loopIter (c : ComputerController) (fs : FS) (now : ℚ)
    (env : CaptureEnv) : IterResult :=
  let step :=
    if should_take_screenshot c now then
      match take_screenshot c env fs with
      | (some p, fs1) => (update_screenshot_time c now, fs1, true, some p, true)
      | (none, fs1) => (c, fs1, true, (none : Option String), false)
    else (c, fs, false, (none : Option String), false)
  match step with
  | (c1, fs1, called, res, marked) =>
    let consumed := was_clicked c1
    { ctrl := consumed.2, fsOut := fs1, captureCalled := called,
      captureReturned := res, markCalled := marked,
      clickReported := consumed.1 }

/-! ### Path facts and small helper lemmas -/

/-- Last character of a string, if any. -/
def lastCharOf (s : String) : Option Char := s.data.getLast?

theorem lastCharOf_append (s t : String) (h : t.data ≠ []) :
    lastCharOf (s ++ t) = lastCharOf t := by
  have hs : (t.data.getLast?).isSome = true := List.getLast?_isSome.mpr h
  rcases Option.isSome_iff_exists.mp hs with ⟨a, ha⟩
  simp [lastCharOf, String.data_append, List.getLast?_append, ha]

theorem ne_of_lastCharOf_ne {s t : String} (h : lastCharOf s ≠ lastCharOf t) :
    s ≠ t := fun he => h (he ▸ rfl)

theorem lastCharOf_exampleFilePath (dir : String) (ms : Nat) :
    lastCharOf (exampleFilePath dir ms) = some 'n' := by
  rw [exampleFilePath, lastCharOf_append _ ".json" (by decide)]
  decide

theorem lastCharOf_genericScreenshotPath (dir : String) :
    lastCharOf (genericScreenshotPath dir) = some 'g' := by
  rw [genericScreenshotPath, lastCharOf_append _ "/screenshot.jpg" (by decide)]
  decide

theorem exampleFilePath_ne_generic (odir sdir : String) (ms : Nat) :
    exampleFilePath odir ms ≠ genericScreenshotPath sdir := by
  refine ne_of_lastCharOf_ne ?_
  rw [lastCharOf_exampleFilePath, lastCharOf_genericScreenshotPath]
  decide

theorem timestamped_ne_generic (dir ts : String) :
    timestampedScreenshotPath dir ts ≠ genericScreenshotPath dir := by
  intro h
  have hl := congrArg String.length h
  simp only [timestampedScreenshotPath, genericScreenshotPath,
    String.length_append] at hl
  have e1 : ("/screenshot_" : String).length = 12 := by decide
  have e2 : (".jpg" : String).length = 4 := by decide
  have e3 : ("/screenshot.jpg" : String).length = 15 := by decide
  omega

theorem FS.existsFile_write_keep (fs : FS) (p q : String) (c : FileContent)
    (h : FS.existsFile fs q = true) :
    FS.existsFile (FS.write fs p c) q = true := by
  by_cases hq : q = p
  · subst hq; exact FS.existsFile_write_self fs q c
  · rw [FS.existsFile_write_ne fs p q c hq]; exact h

theorem exampleFilePath_inj (dir : String) {ms1 ms2 : Nat}
    (h : exampleFilePath dir ms1 = exampleFilePath dir ms2) : ms1 = ms2 := by
  have hd := congrArg String.data h
  simp only [exampleFilePath, String.data_append, List.append_assoc] at hd
  have h1 := List.append_cancel_left hd
  have h2 := List.append_cancel_left h1
  exact natStr_injective (List.append_cancel_right h2)

theorem was_clicked_preserves_last (c : ComputerController) :
    (was_clicked c).2.last_screenshot_time = c.last_screenshot_time := by
  by_cases h : c.clicked <;> simp [was_clicked, h]

theorem was_clicked_preserves_interval (c : ComputerController) :
    (was_clicked c).2.screenshot_interval = c.screenshot_interval := by
  by_cases h : c.clicked <;> simp [was_clicked, h]

theorem recordImageRef_exampleRecord (x y : Decimal) (p : String) :
    recordImageRef (exampleRecord x y p) = some p := rfl

theorem recordAssistant_exampleRecord (x y : Decimal) (p : String) :
    recordAssistant (exampleRecord x y p) = some (assistantContent x y) := rfl

theorem isValidExample_exampleRecord (x y : Decimal) (p : String) :
    isValidExample (exampleRecord x y p) = true := by
  rw [exampleRecord, isValidExample]
  rw [isUserTurn, isAssistantTurn, isTextEntry, isImageEntry]
  decide

/-! ### Concrete sample inputs used by the witnesses -/

/-- The controller as constructed by main in collect.py. -/
def sampleController : ComputerController :=
  { clicked := false, output_dir := "data/text",
    screenshot_dir := "data/images", screenshot_interval := 1/2,
    last_screenshot_time := 0, monitor_id := 2 }

/-- A sample x coordinate, printed 100.5 by Python. -/
def sampleX : Decimal := ⟨false, [1, 0, 0], [5]⟩

/-- A sample y coordinate, printed 200.25 by Python. -/
def sampleY : Decimal := ⟨false, [2, 0, 0], [2, 5]⟩

/-- A filesystem holding exactly the transient screenshot asset. -/
def sampleFS : FS := [(genericScreenshotPath "data/images", FileContent.image)]

/-! ### The claims -/

/-- C1: the claim states that a left press handled with no transient
asset at the generic path still writes an example record with valid
coordinate text. The code does not: in that branch _on_click calls
save_click_data with two arguments although save_click_data declares
three required parameters, so Python raises a TypeError inside the
callback and no record is written. This theorem evaluates the embedded
handler at the failing input: the outcome is the raised TypeError, the
click flag is set, and the filesystem is left empty, with no record
file created. -/
theorem claim_C1_no_asset_typeerror :
    on_click sampleController [] sampleX sampleY Button.left true
        "20250101_120000_000" 1700000000123 true
      = ClickOutcome.raised PyError.typeError
          { sampleController with clicked := true } [] := rfl

/-- C4: was_clicked returns the previous value of the click-pending
flag, clears the flag (touching nothing else in the state), and a
second call with no intervening click returns false. -/
theorem claim_C4_consume_click (c : ComputerController) :
    (was_clicked c).1 = c.clicked ∧
    (was_clicked c).2 = { c with clicked := false } ∧
    (c.clicked = true → (was_clicked c).1 = true) ∧
    (was_clicked (was_clicked c).2).1 = false := by
  rcases c with ⟨cl, od, sd, si, ls, mi⟩
  cases cl <;> simp [was_clicked]

/-- C4 witness: consuming a set flag at a concrete state returns
true. -/
theorem claim_C4_consume_click_witness :
    (was_clicked { sampleController with clicked := true }).1 = true :=
  (claim_C4_consume_click { sampleController with clicked := true }).2.2.1 rfl

/-- C5: should_take_screenshot is a pure Bool-valued function of the
state and the clock reading, true exactly when the elapsed time since
the last capture reaches the interval; after a capture recorded at
now1, a query at now2 with a gap below the interval is false, and a
query once the gap reaches the interval is true. -/
theorem claim_C5_should_capture (c : ComputerController) (now now1 now2 : ℚ) :
    (should_take_screenshot c now = true ↔
      c.screenshot_interval ≤ now - c.last_screenshot_time) ∧
    (now2 - now1 < c.screenshot_interval →
      should_take_screenshot (update_screenshot_time c now1) now2 = false) ∧
    (c.screenshot_interval ≤ now2 - now1 →
      should_take_screenshot (update_screenshot_time c now1) now2 = true) := by
  refine ⟨by simp [should_take_screenshot], ?_, ?_⟩
  · intro h
    simp only [should_take_screenshot, update_screenshot_time,
      decide_eq_false_iff_not, not_le]
    linarith
  · intro h
    simp only [should_take_screenshot, update_screenshot_time,
      decide_eq_true_eq]
    linarith

/-- C5 witness: with the 0.5 second interval of main, a capture at
time 0 suppresses a capture query at time 0.25. -/
theorem claim_C5_should_capture_witness :
    should_take_screenshot (update_screenshot_time sampleController 0)
      (1/4) = false :=
  (claim_C5_should_capture sampleController 0 0 (1/4)).2.1
    (by norm_num [sampleController])

/-- C10: a pointer event that is not a left-button press leaves the
controller state and the filesystem untouched and raises nothing. -/
theorem claim_C10_non_left_frame (c : ComputerController) (fs : FS)
    (x y : Decimal) (b : Button) (pr : Bool) (ts : String) (ms : Nat)
    (ro : Bool) (h : b ≠ Button.left ∨ pr = false) :
    on_click c fs x y b pr ts ms ro = ClickOutcome.normal c fs := by
  rcases h with h | h
  · simp [on_click, h]
  · simp [on_click, h]

/-- C10 witness: a right-button press at a concrete state changes
nothing. -/
theorem claim_C10_non_left_frame_witness :
    on_click sampleController sampleFS sampleX sampleY Button.right true
        "ts" 5 true
      = ClickOutcome.normal sampleController sampleFS :=
  claim_C10_non_left_frame sampleController sampleFS sampleX sampleY
    Button.right true "ts" 5 true (Or.inl (by decide))

/-- C2: a left press handled with the transient asset present and the
rename succeeding returns normally; afterwards no file exists at the
generic path, a file exists at the new timestamped path, and the
written record carries the timestamped path as its image reference. -/
theorem claim_C2_rename_success (c : ComputerController) (fs : FS)
    (x y : Decimal) (ts : String) (ms : Nat)
    (hex : FS.existsFile fs (genericScreenshotPath c.screenshot_dir) = true) :
    ClickOutcome.isNormal (on_click c fs x y Button.left true ts ms true) = true ∧
    FS.existsFile (ClickOutcome.fsOut (on_click c fs x y Button.left true ts ms true))
      (genericScreenshotPath c.screenshot_dir) = false ∧
    FS.existsFile (ClickOutcome.fsOut (on_click c fs x y Button.left true ts ms true))
      (timestampedScreenshotPath c.screenshot_dir ts) = true ∧
    FS.lookup (ClickOutcome.fsOut (on_click c fs x y Button.left true ts ms true))
      (exampleFilePath c.output_dir ms)
      = some (FileContent.json
          (exampleRecord x y (timestampedScreenshotPath c.screenshot_dir ts))) ∧
    recordImageRef (exampleRecord x y (timestampedScreenshotPath c.screenshot_dir ts))
      = some (timestampedScreenshotPath c.screenshot_dir ts) := by
  have hne : genericScreenshotPath c.screenshot_dir
      ≠ timestampedScreenshotPath c.screenshot_dir ts :=
    (timestamped_ne_generic c.screenshot_dir ts).symm
  rcases hlk : FS.lookup fs (genericScreenshotPath c.screenshot_dir) with _ | cont
  · rw [FS.existsFile, hlk] at hex
    simp at hex
  · have hoc : on_click c fs x y Button.left true ts ms true
        = ClickOutcome.normal { c with clicked := true }
            (FS.write
              (FS.rename fs (genericScreenshotPath c.screenshot_dir)
                (timestampedScreenshotPath c.screenshot_dir ts))
              (exampleFilePath c.output_dir ms)
              (FileContent.json
                (exampleRecord x y
                  (timestampedScreenshotPath c.screenshot_dir ts)))) := by
      simp [on_click, hex, save_click_data]
    rw [hoc]
    refine ⟨rfl, ?_, ?_, ?_, recordImageRef_exampleRecord x y _⟩
    · rw [ClickOutcome.fsOut, FS.existsFile,
        FS.lookup_write_ne _ _ _ _
          (exampleFilePath_ne_generic c.output_dir c.screenshot_dir ms).symm,
        FS.lookup_rename_src fs _ _ hex hne]
      rfl
    · rw [ClickOutcome.fsOut]
      refine FS.existsFile_write_keep _ _ _ _ ?_
      rw [FS.existsFile, FS.lookup_rename_dst fs _ _ cont hlk]
      rfl
    · rw [ClickOutcome.fsOut, FS.lookup_write_self]

/-- C2 witness: a concrete click against a filesystem holding the
transient asset. -/
theorem claim_C2_rename_success_witness :
    FS.existsFile sampleFS
      (genericScreenshotPath sampleController.screenshot_dir) = true ∧
    (ClickOutcome.isNormal (on_click sampleController sampleFS sampleX sampleY
        Button.left true "20250101_120000_000" 1700000000123 true) = true ∧
      FS.existsFile (ClickOutcome.fsOut (on_click sampleController sampleFS
          sampleX sampleY Button.left true "20250101_120000_000" 1700000000123 true))
        (genericScreenshotPath sampleController.screenshot_dir) = false ∧
      FS.existsFile (ClickOutcome.fsOut (on_click sampleController sampleFS
          sampleX sampleY Button.left true "20250101_120000_000" 1700000000123 true))
        (timestampedScreenshotPath sampleController.screenshot_dir
          "20250101_120000_000") = true ∧
      FS.lookup (ClickOutcome.fsOut (on_click sampleController sampleFS
          sampleX sampleY Button.left true "20250101_120000_000" 1700000000123 true))
        (exampleFilePath sampleController.output_dir 1700000000123)
        = some (FileContent.json
            (exampleRecord sampleX sampleY
              (timestampedScreenshotPath sampleController.screenshot_dir
                "20250101_120000_000"))) ∧
      recordImageRef (exampleRecord sampleX sampleY
          (timestampedScreenshotPath sampleController.screenshot_dir
            "20250101_120000_000"))
        = some (timestampedScreenshotPath sampleController.screenshot_dir
            "20250101_120000_000")) :=
  ⟨rfl, claim_C2_rename_success sampleController sampleFS sampleX sampleY
    "20250101_120000_000" 1700000000123 rfl⟩

/-- C3: a left press handled with the transient asset present but the
rename failing catches the OSError rather than propagating it, and
writes a record whose image reference is the generic path. -/
theorem claim_C3_rename_failure (c : ComputerController) (fs : FS)
    (x y : Decimal) (ts : String) (ms : Nat)
    (hex : FS.existsFile fs (genericScreenshotPath c.screenshot_dir) = true) :
    ClickOutcome.isNormal (on_click c fs x y Button.left true ts ms false) = true ∧
    FS.lookup (ClickOutcome.fsOut (on_click c fs x y Button.left true ts ms false))
      (exampleFilePath c.output_dir ms)
      = some (FileContent.json
          (exampleRecord x y (genericScreenshotPath c.screenshot_dir))) ∧
    recordImageRef (exampleRecord x y (genericScreenshotPath c.screenshot_dir))
      = some (genericScreenshotPath c.screenshot_dir) := by
  have hoc : on_click c fs x y Button.left true ts ms false
      = ClickOutcome.normal { c with clicked := true }
          (FS.write fs (exampleFilePath c.output_dir ms)
            (FileContent.json
              (exampleRecord x y (genericScreenshotPath c.screenshot_dir)))) := by
    simp [on_click, hex, save_click_data]
  rw [hoc]
  exact ⟨rfl, FS.lookup_write_self _ _ _, recordImageRef_exampleRecord x y _⟩

/-- C3 witness: a concrete click with the asset present and a failing
rename. -/
theorem claim_C3_rename_failure_witness :
    FS.existsFile sampleFS
      (genericScreenshotPath sampleController.screenshot_dir) = true ∧
    (ClickOutcome.isNormal (on_click sampleController sampleFS sampleX sampleY
        Button.left true "20250101_120000_000" 1700000000123 false) = true ∧
      FS.lookup (ClickOutcome.fsOut (on_click sampleController sampleFS
          sampleX sampleY Button.left true "20250101_120000_000" 1700000000123 false))
        (exampleFilePath sampleController.output_dir 1700000000123)
        = some (FileContent.json
            (exampleRecord sampleX sampleY
              (genericScreenshotPath sampleController.screenshot_dir))) ∧
      recordImageRef (exampleRecord sampleX sampleY
          (genericScreenshotPath sampleController.screenshot_dir))
        = some (genericScreenshotPath sampleController.screenshot_dir)) :=
  ⟨rfl, claim_C3_rename_failure sampleController sampleFS sampleX sampleY
    "20250101_120000_000" 1700000000123 rfl⟩

/-- C7: take_screenshot returns the generic written path on success;
when the body raises (monitor grab or image encode failure) the
exception is swallowed and the call returns none with the filesystem
untouched, so the caller never sees an error. -/
theorem claim_C7_capture_errors (c : ComputerController) (env : CaptureEnv)
    (fs : FS) :
    (∀ e, take_screenshot_body c env fs = Except.error e →
      take_screenshot c env fs = (none, fs)) ∧
    (∀ p fs1, take_screenshot_body c env fs = Except.ok (p, fs1) →
      take_screenshot c env fs = (some p, fs1) ∧
      p = genericScreenshotPath c.screenshot_dir ∧
      fs1 = FS.write fs p FileContent.image) ∧
    ((take_screenshot c env fs).1.isSome = true ∨
      take_screenshot c env fs = (none, fs)) := by
  rcases env with ⟨g, e⟩
  cases g <;> cases e <;>
    simp [take_screenshot, take_screenshot_body]

/-- C7 witness: a failing monitor grab at a concrete state yields none
and leaves the filesystem unchanged. -/
theorem claim_C7_capture_errors_witness :
    take_screenshot sampleController ⟨false, true⟩ sampleFS
      = (none, sampleFS) :=
  (claim_C7_capture_errors sampleController ⟨false, true⟩ sampleFS).1
    "monitor grab failed" rfl

/-- C6: in one polling-loop iteration the capture time is marked
exactly when capture was called and returned a path; when the capture
fails the last capture time is untouched, so any clock reading that was
due before the iteration is still due after it and the capture is
retried on the next iteration. -/
theorem claim_C6_mark_iff_capture (c : ComputerController) (fs : FS)
    (now : ℚ) (env : CaptureEnv) :
    ((loopIter c fs now env).markCalled = true ↔
      ((loopIter c fs now env).captureCalled = true ∧
        ((loopIter c fs now env).captureReturned).isSome = true)) ∧
    ((loopIter c fs now env).captureCalled = true ∧
        (loopIter c fs now env).captureReturned = none →
      ((loopIter c fs now env).ctrl.last_screenshot_time
          = c.last_screenshot_time ∧
        ∀ t : ℚ, should_take_screenshot c t = true →
          should_take_screenshot ((loopIter c fs now env).ctrl) t = true)) := by
  have hws : ∀ t : ℚ, should_take_screenshot c t = true →
      should_take_screenshot ((was_clicked c).2) t = true := by
    intro t ht
    rw [should_take_screenshot, was_clicked_preserves_interval,
      was_clicked_preserves_last]
    exact ht
  rcases env with ⟨g, e⟩
  by_cases hs : should_take_screenshot c now <;> cases g <;> cases e <;>
      simp [loopIter, take_screenshot, take_screenshot_body, hs] <;>
    exact ⟨was_clicked_preserves_last c, hws⟩

/-- C6 witness: a due capture whose grab fails does not advance the
last capture time, and the capture stays due. -/
theorem claim_C6_mark_iff_capture_witness :
    (loopIter sampleController sampleFS 1 ⟨false, true⟩).captureCalled = true ∧
    (loopIter sampleController sampleFS 1 ⟨false, true⟩).captureReturned = none ∧
    (loopIter sampleController sampleFS 1 ⟨false, true⟩).ctrl.last_screenshot_time
      = sampleController.last_screenshot_time := by
  have hs : should_take_screenshot sampleController 1 = true := by
    rw [should_take_screenshot]
    simp only [sampleController, decide_eq_true_eq]
    norm_num
  have hcalled : (loopIter sampleController sampleFS 1
      ⟨false, true⟩).captureCalled = true := by
    simp [loopIter, hs, take_screenshot, take_screenshot_body]
  have hret : (loopIter sampleController sampleFS 1
      ⟨false, true⟩).captureReturned = none := by
    simp [loopIter, hs, take_screenshot, take_screenshot_body]
  exact ⟨hcalled, hret,
    ((claim_C6_mark_iff_capture sampleController sampleFS 1 ⟨false, true⟩).2
      ⟨hcalled, hret⟩).1⟩

/-- C8: the record built by the serializer conforms to the documented
schema, its assistant content is the two rendered coordinates joined by
a comma, and splitting that content at the comma returns exactly two
tokens, each matching the numeric coordinate pattern and equal to the
rendering of the corresponding click coordinate. -/
theorem claim_C8_record_roundtrip (x y : Decimal) (p : String)
    (hx : x.intDigits ≠ []) (hy : y.intDigits ≠ []) :
    isValidExample (exampleRecord x y p) = true ∧
    recordAssistant (exampleRecord x y p) = some (assistantContent x y) ∧
    splitComma (assistantContent x y).data = [x.render, y.render] ∧
    coordTok x.render = true ∧ coordTok y.render = true := by
  refine ⟨isValidExample_exampleRecord x y p,
    recordAssistant_exampleRecord x y p, ?_,
    coordTok_render x hx, coordTok_render y hy⟩
  have hdata : (assistantContent x y).data = x.render ++ ',' :: y.render := rfl
  rw [hdata]
  exact splitComma_pair _ _ (comma_not_mem_render x) (comma_not_mem_render y)

/-- C8 witness: the record for the concrete sample coordinates. -/
theorem claim_C8_record_roundtrip_witness :
    sampleX.intDigits ≠ [] ∧ sampleY.intDigits ≠ [] ∧
    (isValidExample (exampleRecord sampleX sampleY
        (genericScreenshotPath "data/images")) = true ∧
      recordAssistant (exampleRecord sampleX sampleY
          (genericScreenshotPath "data/images"))
        = some (assistantContent sampleX sampleY) ∧
      splitComma (assistantContent sampleX sampleY).data
        = [sampleX.render, sampleY.render] ∧
      coordTok sampleX.render = true ∧ coordTok sampleY.render = true) :=
  ⟨by decide, by decide,
    claim_C8_record_roundtrip sampleX sampleY
      (genericScreenshotPath "data/images") (by decide) (by decide)⟩

/-- C9 counterexample: millisecond naming does not guarantee that
distinct written records get distinct file names. Two distinct records
written within the same millisecond produce the same file name, and
after both writes the store holds a single file carrying only the
second record: the first was overwritten. -/
theorem claim_C9_same_ms_collision :
    exampleRecord sampleX sampleY (genericScreenshotPath "data/images")
      ≠ exampleRecord sampleY sampleX (genericScreenshotPath "data/images") ∧
    save_click_data sampleController sampleY sampleX
        (genericScreenshotPath "data/images") 1700000000123
        (save_click_data sampleController sampleX sampleY
          (genericScreenshotPath "data/images") 1700000000123 [])
      = [(exampleFilePath "data/text" 1700000000123,
          FileContent.json (exampleRecord sampleY sampleX
            (genericScreenshotPath "data/images")))] := by
  constructor
  · intro h
    have h2 := congrArg recordAssistant h
    rw [recordAssistant_exampleRecord, recordAssistant_exampleRecord] at h2
    have h3 : assistantContent sampleX sampleY
        = assistantContent sampleY sampleX := Option.some.inj h2
    exact absurd h3 (by decide)
  · rfl

/-- C9 amended: every record is written to the file named example_
stamp .json for its millisecond stamp, one self-contained record per
file, leaving every other path untouched; names are distinct whenever
the millisecond stamps are distinct (records within the same
millisecond share a name and the later write wins, as the
counterexample shows). -/
theorem claim_C9_naming (c : ComputerController) (x y : Decimal)
    (p : String) (ms1 ms2 : Nat) (fs : FS) :
    FS.lookup (save_click_data c x y p ms1 fs)
      (exampleFilePath c.output_dir ms1)
      = some (FileContent.json (exampleRecord x y p)) ∧
    (∀ q, q ≠ exampleFilePath c.output_dir ms1 →
      FS.lookup (save_click_data c x y p ms1 fs) q = FS.lookup fs q) ∧
    (ms1 ≠ ms2 →
      exampleFilePath c.output_dir ms1 ≠ exampleFilePath c.output_dir ms2) := by
  refine ⟨FS.lookup_write_self _ _ _,
    fun q hq => FS.lookup_write_ne _ _ _ _ hq,
    fun hne heq => hne (exampleFilePath_inj c.output_dir heq)⟩

/-- C9 amended witness: distinct millisecond stamps give distinct
names. -/
theorem claim_C9_naming_witness :
    exampleFilePath sampleController.output_dir 1700000000123
      ≠ exampleFilePath sampleController.output_dir 1700000000124 :=
  (claim_C9_naming sampleController sampleX sampleY "p" 1700000000123
    1700000000124 []).2.2 (by decide)

end Collect
